import Mathlib

/-!
Verification of the stores-api service (Express + SQLite, files index.js and
db.js) against its specification.

The embedding models:
- request payloads as JS objects restricted to the field names the code reads
  (name, address, phone, email, and a possible nested envelope field named
  store), whose values are strings or the JS null;
- the express-validator chains on POST /stores and PUT /stores/:id, which run
  as middleware on the request body BEFORE the route handler executes; the
  handler call validationResult only reads the errors that were already
  recorded then, so reassigning req.body inside the handler has no effect on
  the recorded errors;
- the sqlite stores table (db.js) as a list of rows plus an autoincrement
  counter, with NOT NULL constraints on name and address, and the timestamp
  defaults as an explicit clock argument;
- each route handler as a pure function from request data and database state
  to a response and a new database state, with explicit boolean arguments
  injecting the possible failure of each database call;
- the outbound formatter sendResponse, including the Accept-header check via
  the JS String.includes test and the XML root-name choice, and the fact that
  every error path responds with res.status(...).json(...), bypassing
  sendResponse;
- the XML libraries at the element-tree level: js2xmlparser turns a flat
  record of scalars into an element per field (null and the empty string
  become an empty element, numbers are printed in decimal), and xml2js with
  explicitArray false and explicitRoot false discards the root element and
  yields the text content of each child, as a record with string values.
  Printing a tree to text and re-reading it is faithful (escaping is
  bijective), so the round-trip claims are settled at the tree level, for
  records with pairwise distinct field names as produced from a Store row.
-/

/-- A JS scalar as it appears in a parsed request body field: a string or
the JS null. An absent field (JS undefined) is `none` of `Option JScalar`. -/
inductive JScalar where
  | str (s : String)
  | null
deriving DecidableEq, Repr

/-- The flat fields of a request body that the handlers read. `none` means
the field is absent (undefined). -/
structure FlatBody where
  name : Option JScalar := none
  address : Option JScalar := none
  phone : Option JScalar := none
  email : Option JScalar := none
deriving DecidableEq, Repr

/-- A request body after body parsing: the flat fields plus a possible
nested envelope object under the field named store. -/
structure ReqBody extends FlatBody where
  store : Option FlatBody := none
deriving DecidableEq, Repr

/-- express-validator coerces the checked value to a string: undefined and
null become the empty string, a string is kept. -/
def vToString : Option JScalar → String
  | none => ""
  | some JScalar.null => ""
  | some (JScalar.str s) => s

/-- Errors recorded by the POST /stores chain
body name notEmpty, body address notEmpty: a field fails when its
string coercion is empty. The chain runs on the raw request body. -/
def createErrors (b : ReqBody) : List String :=
  (if vToString b.name = "" then ["name is required"] else []) ++
  (if vToString b.address = "" then ["address is required"] else [])

/-- One optional notEmpty check of the PUT chain: skipped when the field is
undefined, otherwise fails when its string coercion is empty. -/
def optionalEmpty (v : Option JScalar) : Bool :=
  match v with
  | none => false
  | some w => vToString (some w) = ""

/-- Errors recorded by the PUT /stores/:id chain
body name optional notEmpty, body address optional notEmpty,
run on the raw request body before the handler executes. -/
def updateErrors (b : ReqBody) : List String :=
  (if optionalEmpty b.name then ["name cannot be empty"] else []) ++
  (if optionalEmpty b.address then ["address cannot be empty"] else [])

/-- The handler-level unwrap in index.js: if payload.store is truthy (an
object always is), use it as the payload; otherwise use the body itself. -/
def effectivePayload (b : ReqBody) : FlatBody :=
  match b.store with
  | some s => s
  | none => b.toFlatBody

/-- A persisted row of the stores table (db.js): name and address are
TEXT NOT NULL, phone and email are nullable TEXT, timestamps are modelled
as natural numbers. -/
structure Row where
  id : Nat
  name : String
  address : String
  phone : Option String := none
  email : Option String := none
  created_at : Nat
  updated_at : Nat
deriving DecidableEq, Repr

/-- The database state: the rows of the stores table and the next value of
the AUTOINCREMENT id counter. -/
structure DbState where
  rows : List Row := []
  nextId : Nat := 1
deriving DecidableEq, Repr

/-- Binding a JS value as a sqlite parameter: null (and undefined) bind as
SQL NULL, a string binds as itself. -/
def toDbVal : Option JScalar → Option String
  | none => none
  | some JScalar.null => none
  | some (JScalar.str s) => some s

/-- SELECT * FROM stores WHERE id = ? -/
def dbGet (db : DbState) (i : Nat) : Option Row :=
  db.rows.find? (fun r => r.id = i)

/-- INSERT INTO stores (name, address, phone, email) VALUES (?, ?, ?, ?):
fails (NOT NULL constraint) when name or address binds as NULL; otherwise
appends a row with a fresh id and both timestamps set to the current time
(both DATETIME columns default to CURRENT_TIMESTAMP of the same statement). -/
def dbInsert (db : DbState) (now : Nat) (n a p e : Option String) :
    Option (DbState × Nat) :=
  match n, a with
  | some n', some a' =>
      let r : Row :=
        { id := db.nextId, name := n', address := a', phone := p, email := e,
          created_at := now, updated_at := now }
      some ({ rows := db.rows ++ [r], nextId := db.nextId + 1 }, db.nextId)
  | _, _ => none

/-- UPDATE stores SET name = ?, address = ?, phone = ?, email = ?,
updated_at = CURRENT_TIMESTAMP WHERE id = ?: fails (NOT NULL constraint)
when name or address binds as NULL; otherwise rewrites every row whose id
matches. -/
def dbUpdate (db : DbState) (i : Nat) (now : Nat) (n a p e : Option String) :
    Option DbState :=
  match n, a with
  | some n', some a' =>
      some { db with rows := db.rows.map (fun r =>
        if r.id = i then
          { r with name := n', address := a', phone := p, email := e,
                   updated_at := now }
        else r) }
  | _, _ => none

/-- The merge step of the update handler: a field keeps the stored value
exactly when the payload field is undefined; a present field (string or
null) is bound as the new sqlite value. -/
def mergeField (pv : Option JScalar) (old : Option String) : Option String :=
  match pv with
  | none => old
  | some v => toDbVal (some v)

/-- Response wire format: res.json versus the XML branch of sendResponse. -/
inductive Fmt where
  | json
  | xml
deriving DecidableEq, Repr

/-- The shapes of data this service ever serializes: a bare array, a single
row object, the object wrapping rows under the field named store (the list
handler builds it), a message object, and the two JSON error shapes. -/
inductive RespData where
  | arr (rs : List Row)
  | rowData (r : Row)
  | storeWrap (rs : List Row)
  | msg (s : String)
  | errObj (e : String)
  | errList (es : List String)
deriving DecidableEq, Repr

/-- An HTTP response: status code, body format, body data, and the XML root
element name chosen by sendResponse when the format is XML. -/
structure Resp where
  status : Nat
  fmt : Fmt
  data : RespData
  xmlRoot : Option String := none
deriving DecidableEq, Repr

/-- Char-list prefix test, modelling the start of a JS indexOf scan. -/
def leadsWith : List Char → List Char → Bool
  | [], _ => true
  | _ :: _, [] => false
  | a :: as, b :: bs => a = b && leadsWith as bs

/-- Char-list substring test. -/
def hasSub (sub : List Char) : List Char → Bool
  | [] => leadsWith sub []
  | b :: bs => leadsWith sub (b :: bs) || hasSub sub bs

/-- JS String.includes. -/
def jsIncludes (s sub : String) : Bool :=
  hasSub sub.toList s.toList

/-- The Accept-header test of sendResponse. -/
def wantsXml (accept : String) : Bool :=
  jsIncludes accept "application/xml" || jsIncludes accept "text/xml"

/-- Truthiness of the id field of the serialized data, as in the JS test
data && data.id: only a single row object has an id field, and the number 0
is falsy. -/
def hasIdField : RespData → Bool
  | RespData.rowData r => r.id ≠ 0
  | _ => false

/-- Array.isArray on the serialized data. -/
def isArrayData : RespData → Bool
  | RespData.arr _ => true
  | _ => false

/-- The XML root-name choice of sendResponse. -/
def rootName (d : RespData) : String :=
  if isArrayData d then "stores"
  else if hasIdField d then "store" else "response"

/-- sendResponse: XML with the chosen root when the Accept header asks for
it, JSON otherwise. Only called on success paths. -/
def sendResponse (accept : String) (d : RespData) (status : Nat) : Resp :=
  if wantsXml accept then
    { status := status, fmt := Fmt.xml, data := d, xmlRoot := some (rootName d) }
  else
    { status := status, fmt := Fmt.json, data := d }

/-- SELECT * FROM stores ORDER BY id DESC: the order relation of the query. -/
def rowGE (a b : Row) : Prop := b.id ≤ a.id

instance : DecidableRel rowGE := fun a b => Nat.decLe b.id a.id

instance : IsTotal Row rowGE := ⟨fun a b => Nat.le_total b.id a.id⟩

instance : IsTrans Row rowGE := ⟨fun _ _ _ hab hbc => Nat.le_trans hbc hab⟩

/-- The result set of SELECT * FROM stores ORDER BY id DESC. -/
def orderByIdDesc (l : List Row) : List Row :=
  List.insertionSort rowGE l

/-- GET /stores: on db failure a JSON 500, otherwise the rows ordered by id
descending, wrapped in an object under the field named store, through
sendResponse. -/
def getStores (accept : String) (fail_all : Bool) (db : DbState) : Resp :=
  if fail_all then
    { status := 500, fmt := Fmt.json, data := RespData.errObj "Database error" }
  else
    sendResponse accept (RespData.storeWrap (orderByIdDesc db.rows)) 200

/-- POST /stores. The validation chain already ran on the raw body; the
handler unwraps the store envelope, returns the recorded errors if any,
inserts, re-reads the new row and sends it with status 201. Every error
responds as JSON. fail_insert and fail_fetch inject db failures of the
INSERT and of the re-read SELECT. -/
def postStores (accept : String) (now : Nat) (fail_insert fail_fetch : Bool)
    (b : ReqBody) (db : DbState) : Resp × DbState :=
  let payload := effectivePayload b
  let errs := createErrors b
  if errs.isEmpty then
    if fail_insert then
      ({ status := 500, fmt := Fmt.json,
         data := RespData.errObj "Failed to create store" }, db)
    else
      match dbInsert db now (toDbVal payload.name) (toDbVal payload.address)
          (toDbVal payload.phone) (toDbVal payload.email) with
      | none =>
          ({ status := 500, fmt := Fmt.json,
             data := RespData.errObj "Failed to create store" }, db)
      | some (db', newId) =>
          if fail_fetch then
            ({ status := 500, fmt := Fmt.json,
               data := RespData.errObj "DB fetch failed" }, db')
          else
            match dbGet db' newId with
            | some row => (sendResponse accept (RespData.rowData row) 201, db')
            | none =>
                ({ status := 500, fmt := Fmt.json,
                   data := RespData.errObj "DB fetch failed" }, db')
  else
    ({ status := 400, fmt := Fmt.json, data := RespData.errList errs }, db)

/-- GET /stores/:id: JSON 500 on db failure, JSON 404 when no row matches,
otherwise the row through sendResponse with status 200. -/
def getStoreById (accept : String) (fail_get : Bool) (i : Nat)
    (db : DbState) : Resp :=
  if fail_get then
    { status := 500, fmt := Fmt.json, data := RespData.errObj "Database error" }
  else
    match dbGet db i with
    | none =>
        { status := 404, fmt := Fmt.json,
          data := RespData.errObj "Store not found" }
    | some row => sendResponse accept (RespData.rowData row) 200

/-- PUT /stores/:id. The optional validation chain already ran on the raw
body; the handler unwraps the store envelope, looks the row up (404 when
absent), only then reports the recorded validation errors, merges the
unwrapped payload over the existing row, updates, re-reads and sends the
row with status 200. Every error responds as JSON. -/
def putStore (accept : String) (now : Nat)
    (fail_get fail_update fail_fetch : Bool)
    (i : Nat) (b : ReqBody) (db : DbState) : Resp × DbState :=
  let payload := effectivePayload b
  if fail_get then
    ({ status := 500, fmt := Fmt.json, data := RespData.errObj "DB error" }, db)
  else
    match dbGet db i with
    | none =>
        ({ status := 404, fmt := Fmt.json,
           data := RespData.errObj "Store not found" }, db)
    | some existing =>
        let errs := updateErrors b
        if errs.isEmpty then
          let n := mergeField payload.name (some existing.name)
          let a := mergeField payload.address (some existing.address)
          let p := mergeField payload.phone existing.phone
          let e := mergeField payload.email existing.email
          if fail_update then
            ({ status := 500, fmt := Fmt.json,
               data := RespData.errObj "Update failed" }, db)
          else
            match dbUpdate db i now n a p e with
            | none =>
                ({ status := 500, fmt := Fmt.json,
                   data := RespData.errObj "Update failed" }, db)
            | some db' =>
                if fail_fetch then
                  ({ status := 500, fmt := Fmt.json,
                     data := RespData.errObj "Fetch after update failed" }, db')
                else
                  match dbGet db' i with
                  | some row =>
                      (sendResponse accept (RespData.rowData row) 200, db')
                  | none =>
                      ({ status := 500, fmt := Fmt.json,
                         data := RespData.errObj "Fetch after update failed" },
                       db')
        else
          ({ status := 400, fmt := Fmt.json, data := RespData.errList errs }, db)

/-- A scalar field value of a canonical outbound record: the scalar types a
Store row carries on the wire (strings, integers, null, timestamps printed
as strings). -/
inductive ScalarVal where
  | str (s : String)
  | int (n : Int)
  | null
deriving DecidableEq, Repr

/-- An XML element tree (text given unescaped; escaping on print and
unescaping on parse compose to the identity). -/
inductive Xml where
  | elem (name : String) (children : List Xml)
  | text (s : String)

/-- The children js2xmlparser gives the element of one field: null and the
empty string yield an empty element, a number is printed in decimal, a
non-empty string is the text content. -/
def scalarChildren : ScalarVal → List Xml
  | ScalarVal.str "" => []
  | ScalarVal.str s => [Xml.text s]
  | ScalarVal.int n => [Xml.text (toString n)]
  | ScalarVal.null => []

/-- js2xmlparser.parse root record, at the tree level: one child element per
field, in order. -/
def js2xml (root : String) (rec : List (String × ScalarVal)) : Xml :=
  Xml.elem root (rec.map (fun kv => Xml.elem kv.1 (scalarChildren kv.2)))

/-- What xml2js (explicitArray false) yields for one child element holding
scalar content: an empty element becomes the empty string, a text-only
element becomes its text. Deeper shapes fall outside the scalar fragment. -/
def parseXmlField : Xml → Option (String × ScalarVal)
  | Xml.elem k [] => some (k, ScalarVal.str "")
  | Xml.elem k [Xml.text s] => some (k, ScalarVal.str s)
  | _ => none

/-- Parse a list of sibling child elements into a record. -/
def parseFields : List Xml → Option (List (String × ScalarVal))
  | [] => some []
  | c :: cs =>
      match parseXmlField c, parseFields cs with
      | some kv, some rest => some (kv :: rest)
      | _, _ => none

/-- xml2js with explicitRoot false and explicitArray false on a tree whose
children are scalar fields with pairwise distinct names, as a Store row
serializes to: the root element is discarded and each child becomes one
field of the record. -/
def xml2jsRecord : Xml → Option (List (String × ScalarVal))
  | Xml.elem _ children => parseFields children
  | Xml.text _ => none

/-- JSON.parse after JSON.stringify is the identity on records whose fields
are strings, integers or null. -/
def jsonRoundTrip (rec : List (String × ScalarVal)) :
    List (String × ScalarVal) := rec

/-- A sample persisted row. -/
def sampleRow : Row :=
  { id := 1, name := "Acme", address := "1 Main St", created_at := 0,
    updated_at := 0 }

/-- A database holding exactly the sample row. -/
def sampleDb : DbState := { rows := [sampleRow], nextId := 2 }

/-- The JSON create payload of the spec scenario. -/
def acmeBody : ReqBody :=
  { name := some (JScalar.str "Acme"),
    address := some (JScalar.str "1 Main St") }

/-- A create payload carrying valid fields inside a store envelope, with
nothing at top level: the canonical record for a JSON body whose only field
is store. -/
def envBody : ReqBody :=
  { store := some { name := some (JScalar.str "Acme"),
                    address := some (JScalar.str "1 Main St") } }

/-- An update payload whose store envelope carries an empty name. -/
def emptyNameEnv : ReqBody :=
  { store := some { name := some (JScalar.str "") } }

/-- An update payload whose only field is phone with the JS null value. -/
def phoneNullBody : ReqBody := { phone := some JScalar.null }

/-- Whether a scalar field value is a string (timestamps included). -/
def isStrVal : ScalarVal → Bool
  | ScalarVal.str _ => true
  | _ => false

theorem sendResponse_status (accept : String) (d : RespData) (status : Nat) :
    (sendResponse accept d status).status = status := by
  unfold sendResponse
  split <;> rfl

theorem sendResponse_data (accept : String) (d : RespData) (status : Nat) :
    (sendResponse accept d status).data = d := by
  unfold sendResponse
  split <;> rfl

theorem find?_map_id (i : Nat) (f : Row → Row) (hf : ∀ r, (f r).id = r.id) :
    ∀ (l : List Row) (x : Row),
      l.find? (fun r => r.id = i) = some x →
      (l.map f).find? (fun r => r.id = i) = some (f x) := by
  intro l
  induction l with
  | nil => intro x hx; simp [List.find?] at hx
  | cons r t ih =>
      intro x hx
      by_cases h : r.id = i
      · rw [List.find?_cons_of_pos _ (by simp [h])] at hx
        cases hx
        rw [List.map_cons, List.find?_cons_of_pos _ (by simp [hf r, h])]
      · rw [List.find?_cons_of_neg _ (by simp [h])] at hx
        rw [List.map_cons, List.find?_cons_of_neg _ (by simp [hf r, h])]
        exact ih x hx

theorem find?_append_fresh (i : Nat) :
    ∀ (l : List Row) (x : Row), (∀ r ∈ l, r.id ≠ i) → x.id = i →
      (l ++ [x]).find? (fun r => r.id = i) = some x := by
  intro l
  induction l with
  | nil =>
      intro x _ hx
      simp [List.find?, hx]
  | cons r t ih =>
      intro x hall hx
      have hr : r.id ≠ i := hall r (List.mem_cons_self r t)
      rw [List.cons_append, List.find?_cons_of_neg _ (by simp [hr])]
      exact ih x (fun s hs => hall s (List.mem_cons_of_mem r hs)) hx

theorem parseXmlField_str (k s : String) :
    parseXmlField (Xml.elem k (scalarChildren (ScalarVal.str s))) =
      some (k, ScalarVal.str s) := by
  by_cases h : s = ""
  · subst h
    rfl
  · have hc : scalarChildren (ScalarVal.str s) = [Xml.text s] := by
      unfold scalarChildren
      split
      · rename_i heq
        injection heq with hss
        exact absurd hss h
      · rename_i heq
        injection heq with hss
        rw [hss]
      · rename_i heq
        exact ScalarVal.noConfusion heq
      · rename_i heq
        exact ScalarVal.noConfusion heq
    rw [hc]
    rfl

theorem parseFields_str_record :
    ∀ (l : List (String × ScalarVal)),
      (∀ kv ∈ l, isStrVal kv.2 = true) →
      parseFields (l.map (fun kv => Xml.elem kv.1 (scalarChildren kv.2))) =
        some l := by
  intro l
  induction l with
  | nil => intro _; rfl
  | cons kv t ih =>
      intro h
      obtain ⟨k, v⟩ := kv
      have hv : isStrVal v = true := h (k, v) (List.mem_cons_self _ t)
      obtain ⟨s, hs⟩ : ∃ s, v = ScalarVal.str s := by
        cases v with
        | str s => exact ⟨s, rfl⟩
        | int n => simp [isStrVal] at hv
        | null => simp [isStrVal] at hv
      subst hs
      have ht : ∀ kv ∈ t, isStrVal kv.2 = true := fun x hx =>
        h x (List.mem_cons_of_mem _ hx)
      simp only [List.map_cons]
      unfold parseFields
      rw [parseXmlField_str, ih ht]

/-- C1. The claim says validation reads the unwrapped store envelope, so a
create payload with non-empty name and address inside a store envelope
succeeds with 201. In the code the validation chain runs on the raw body
before the handler unwraps the envelope, so a JSON body whose only field is
a store envelope with valid name and address is rejected with 400 and both
required-field errors, and nothing is persisted. -/
theorem C1_envelope_validation_uses_raw_body :
    (postStores "" 5 false false envBody {}).1.status = 400 ∧
    (postStores "" 5 false false envBody {}).1.data =
      RespData.errList ["name is required", "address is required"] ∧
    (postStores "" 5 false false envBody {}).2 = ({} : DbState) := by
  decide

/-- C2. The claim says no sequence of create and update requests can persist
a row with empty name or address. Updating the sample row with a body whose
store envelope carries an empty name succeeds with 200 and persists the row
with name equal to the empty string: the optional validation chain saw only
the raw body, where name is absent, while the merge reads the unwrapped
envelope. -/
theorem C2_empty_name_persisted :
    (putStore "" 5 false false false 1 emptyNameEnv sampleDb).1.status = 200 ∧
    dbGet (putStore "" 5 false false false 1 emptyNameEnv sampleDb).2 1 =
      some { id := 1, name := "", address := "1 Main St", phone := none,
             email := none, created_at := 0, updated_at := 5 } := by
  decide

/-- C3 counterexample. The claim says the XML round trip agrees with the
JSON round trip for strings, integers, null and timestamp strings. An
integer field comes back as its decimal string and a null field comes back
as the empty string, so both disagree with the JSON round trip, which is
the identity. -/
theorem C3_roundtrip_counterexample :
    xml2jsRecord (js2xml "store" [("id", ScalarVal.int 1)]) ≠
      some (jsonRoundTrip [("id", ScalarVal.int 1)]) ∧
    xml2jsRecord (js2xml "store" [("phone", ScalarVal.null)]) ≠
      some (jsonRoundTrip [("phone", ScalarVal.null)]) := by
  decide

/-- C3 amended. The XML round trip agrees with the JSON round trip exactly
on the string-valued fields (timestamps-as-strings included, the empty
string included): for a record all of whose fields are strings, with
pairwise distinct field names as a Store row has, serializing through
js2xmlparser and parsing back through xml2js yields the record unchanged,
as the JSON round trip does. Integer fields come back as decimal strings
and null fields as empty strings. -/
theorem C3_string_fields_roundtrip (root : String)
    (rec : List (String × ScalarVal))
    (hstr : ∀ kv ∈ rec, isStrVal kv.2 = true)
    (_hnd : (rec.map Prod.fst).Nodup) :
    xml2jsRecord (js2xml root rec) = some (jsonRoundTrip rec) := by
  unfold js2xml xml2jsRecord jsonRoundTrip
  exact parseFields_str_record rec hstr

/-- Witness for the amended C3 at a concrete record with a name, a nullable
field rendered as a string, and a timestamp string. -/
theorem C3_string_fields_roundtrip_witness :
    (∀ kv ∈ [("name", ScalarVal.str "Acme"), ("phone", ScalarVal.str ""),
        ("created_at", ScalarVal.str "2024-01-01 00:00:00")],
      isStrVal kv.2 = true) ∧
    (([("name", ScalarVal.str "Acme"), ("phone", ScalarVal.str ""),
        ("created_at", ScalarVal.str "2024-01-01 00:00:00")].map
          Prod.fst).Nodup) ∧
    xml2jsRecord (js2xml "store"
        [("name", ScalarVal.str "Acme"), ("phone", ScalarVal.str ""),
         ("created_at", ScalarVal.str "2024-01-01 00:00:00")]) =
      some (jsonRoundTrip
        [("name", ScalarVal.str "Acme"), ("phone", ScalarVal.str ""),
         ("created_at", ScalarVal.str "2024-01-01 00:00:00")]) :=
  ⟨by decide, by decide,
    C3_string_fields_roundtrip "store"
      [("name", ScalarVal.str "Acme"), ("phone", ScalarVal.str ""),
       ("created_at", ScalarVal.str "2024-01-01 00:00:00")]
      (by decide) (by decide)⟩

/-- C4 counterexample. The claim says the XML list payload uses the root
element name stores. The list handler wraps the rows in an object under the
field named store, which is neither an array nor an object with an id, so
sendResponse picks the root name response. -/
theorem C4_root_counterexample :
    (getStores "application/xml" false sampleDb).xmlRoot ≠ some "stores" ∧
    (getStores "application/xml" false sampleDb).xmlRoot = some "response" := by
  decide

/-- C4 amended. The list operation, absent a storage failure, returns
status 200 with all rows ordered by id descending, but wrapped in an object
under the field named store; because that wrapper is not an array and has no
id field, the XML root element chosen for it is response, not stores. -/
theorem C4_list_ordered_but_wrapped (accept : String) (db : DbState)
    (h : wantsXml accept = true) :
    (getStores accept false db).status = 200 ∧
    (getStores accept false db).data =
      RespData.storeWrap (orderByIdDesc db.rows) ∧
    List.Sorted rowGE (orderByIdDesc db.rows) ∧
    (orderByIdDesc db.rows).Perm db.rows ∧
    (getStores accept false db).fmt = Fmt.xml ∧
    (getStores accept false db).xmlRoot = some "response" := by
  refine ⟨?_, ?_, List.sorted_insertionSort rowGE db.rows,
    List.perm_insertionSort rowGE db.rows, ?_, ?_⟩ <;>
    simp [getStores, sendResponse, h, rootName, isArrayData, hasIdField]

/-- Witness for the amended C4 at the sample database with an XML Accept
header. -/
theorem C4_list_ordered_but_wrapped_witness :
    wantsXml "application/xml" = true ∧
    ((getStores "application/xml" false sampleDb).status = 200 ∧
     (getStores "application/xml" false sampleDb).data =
       RespData.storeWrap (orderByIdDesc sampleDb.rows) ∧
     List.Sorted rowGE (orderByIdDesc sampleDb.rows) ∧
     (orderByIdDesc sampleDb.rows).Perm sampleDb.rows ∧
     (getStores "application/xml" false sampleDb).fmt = Fmt.xml ∧
     (getStores "application/xml" false sampleDb).xmlRoot =
       some "response") :=
  ⟨by decide, C4_list_ordered_but_wrapped "application/xml" sampleDb
    (by decide)⟩

/-- C5 counterexample. The claim says an error response, including a
storage failure after the write step, leaves the persisted state unchanged.
When the INSERT succeeds and the re-read SELECT fails, create responds 500
yet the new row is persisted. -/
theorem C5_partial_success_counterexample :
    (postStores "" 5 false true acmeBody {}).1.status = 500 ∧
    (postStores "" 5 false true acmeBody {}).1.data =
      RespData.errObj "DB fetch failed" ∧
    dbGet (postStores "" 5 false true acmeBody {}).2 1 =
      some { id := 1, name := "Acme", address := "1 Main St", phone := none,
             email := none, created_at := 5, updated_at := 5 } := by
  decide

/-- C5 amended. When the write step itself fails (INSERT on create, UPDATE
on update), or the request fails before it, the persisted state is
unchanged; only a failure of the read-back after a successful write can
report an error while the state has changed. -/
theorem C5_write_failure_leaves_state (accept : String) (now : Nat)
    (ff : Bool) (i : Nat) (b : ReqBody) (db : DbState) :
    (postStores accept now true ff b db).2 = db ∧
    (putStore accept now false true ff i b db).2 = db := by
  constructor
  · unfold postStores
    by_cases h : (createErrors b).isEmpty <;> simp [h]
  · unfold putStore
    cases hg : dbGet db i with
    | none => simp
    | some existing =>
        by_cases h : (updateErrors b).isEmpty <;> simp [h]

/-- C6 counterexample. The claim says a get of a nonexistent id with an XML
Accept header answers 404 with an XML body. The not-found path always
responds with res.json, so the body format is JSON. -/
theorem C6_error_counterexample :
    (getStoreById "application/xml" false 9999 {}).status = 404 ∧
    (getStoreById "application/xml" false 9999 {}).fmt ≠ Fmt.xml := by
  decide

/-- C6 amended. A get of a nonexistent id returns 404 with the JSON error
body regardless of the Accept header: content negotiation applies only to
success responses, error paths bypass sendResponse. -/
theorem C6_notfound_always_json (accept : String) (i : Nat) (db : DbState)
    (h : dbGet db i = none) :
    getStoreById accept false i db =
      { status := 404, fmt := Fmt.json,
        data := RespData.errObj "Store not found", xmlRoot := none } := by
  unfold getStoreById
  simp [h]

/-- Witness for the amended C6 at a nonexistent id with an XML Accept
header. -/
theorem C6_notfound_always_json_witness :
    dbGet {} 9999 = none ∧
    getStoreById "application/xml" false 9999 ({} : DbState) =
      { status := 404, fmt := Fmt.json,
        data := RespData.errObj "Store not found", xmlRoot := none } := by
  exact ⟨by decide, C6_notfound_always_json "application/xml" 9999 {}
    (by decide)⟩

/-- A direct update payload with an empty name and no envelope. -/
def emptyNameBody : ReqBody := { name := some (JScalar.str "") }

/-- C7. For an update whose target id matches no row and whose payload also
violates a field rule, the response is the 404 not-found error, not the 400
validation error: the handler reports the recorded validation errors only
after the existence check succeeded. -/
theorem C7_notfound_precedes_validation (accept : String) (now i : Nat)
    (fu ff : Bool) (b : ReqBody) (db : DbState)
    (hmiss : dbGet db i = none) (_hbad : updateErrors b ≠ []) :
    (putStore accept now false fu ff i b db).1 =
      { status := 404, fmt := Fmt.json,
        data := RespData.errObj "Store not found", xmlRoot := none } := by
  unfold putStore
  simp [hmiss]

/-- Witness for C7: updating id 1 in the empty database with an empty name
payload answers 404. -/
theorem C7_notfound_precedes_validation_witness :
    dbGet {} 1 = none ∧ updateErrors emptyNameBody ≠ [] ∧
    (putStore "" 5 false false false 1 emptyNameBody ({} : DbState)).1 =
      { status := 404, fmt := Fmt.json,
        data := RespData.errObj "Store not found", xmlRoot := none } :=
  ⟨by decide, by decide,
    C7_notfound_precedes_validation "" 5 1 false false emptyNameBody {}
      (by decide) (by decide)⟩

/-- The id stored in a row found by dbGet is the id looked up. -/
theorem dbGet_id (db : DbState) (i : Nat) (old : Row)
    (h : dbGet db i = some old) : old.id = i := by
  unfold dbGet at h
  have := List.find?_some h
  simpa using this

/-- The create success path: when the validation chain recorded no error and
the unwrapped payload binds non-NULL name and address, create with no db
failure appends the new row and answers 201 with that row. -/
theorem postStores_success (accept : String) (now : Nat) (b : ReqBody)
    (db : DbState) (n a : String) (p e : Option String)
    (herr : createErrors b = [])
    (hn : toDbVal (effectivePayload b).name = some n)
    (ha : toDbVal (effectivePayload b).address = some a)
    (hp : toDbVal (effectivePayload b).phone = p)
    (he : toDbVal (effectivePayload b).email = e)
    (hfresh : ∀ r ∈ db.rows, r.id ≠ db.nextId) :
    postStores accept now false false b db =
      (sendResponse accept (RespData.rowData
        { id := db.nextId, name := n, address := a, phone := p, email := e,
          created_at := now, updated_at := now }) 201,
       { rows := db.rows ++
           [{ id := db.nextId, name := n, address := a, phone := p,
              email := e, created_at := now, updated_at := now }],
         nextId := db.nextId + 1 }) := by
  have hget : dbGet
      { rows := db.rows ++
          [{ id := db.nextId, name := n, address := a, phone := p, email := e,
             created_at := now, updated_at := now }],
        nextId := db.nextId + 1 } db.nextId =
      some { id := db.nextId, name := n, address := a, phone := p, email := e,
             created_at := now, updated_at := now } := by
    unfold dbGet
    exact find?_append_fresh db.nextId db.rows _ hfresh rfl
  unfold postStores
  simp [herr, hn, ha, hp, he, dbInsert, hget]

/-- C9. A create request with JSON name Acme and address 1 Main St, on any
database whose rows all have ids other than the fresh autoincrement value,
succeeds with 201 and a body carrying the new row: integer id equal to the
fresh id, the two supplied strings, null phone and email, and both
timestamps set and equal. -/
theorem C9_create_scenario (accept : String) (now : Nat) (db : DbState)
    (hfresh : ∀ r ∈ db.rows, r.id ≠ db.nextId) :
    (postStores accept now false false acmeBody db).1.status = 201 ∧
    ∃ r, (postStores accept now false false acmeBody db).1.data =
        RespData.rowData r ∧
      r.id = db.nextId ∧ r.name = "Acme" ∧ r.address = "1 Main St" ∧
      r.phone = none ∧ r.email = none ∧ r.created_at = now ∧
      r.updated_at = now ∧ r.created_at = r.updated_at := by
  rw [postStores_success accept now acmeBody db "Acme" "1 Main St" none none
    (by decide) (by decide) (by decide) (by decide) (by decide) hfresh]
  refine ⟨sendResponse_status _ _ _, ?_⟩
  exact ⟨_, sendResponse_data _ _ _, rfl, rfl, rfl, rfl, rfl, rfl, rfl, rfl⟩

/-- Witness for C9 on the empty database. -/
theorem C9_create_scenario_witness :
    (∀ r ∈ ({} : DbState).rows, r.id ≠ ({} : DbState).nextId) ∧
    ((postStores "" 7 false false acmeBody {}).1.status = 201 ∧
     ∃ r, (postStores "" 7 false false acmeBody {}).1.data =
         RespData.rowData r ∧
       r.id = ({} : DbState).nextId ∧ r.name = "Acme" ∧
       r.address = "1 Main St" ∧ r.phone = none ∧ r.email = none ∧
       r.created_at = 7 ∧ r.updated_at = 7 ∧ r.created_at = r.updated_at) :=
  ⟨by simp, C9_create_scenario "" 7 {} (by simp)⟩

/-- With an existing target row and recorded validation errors, update
reports 400 with the recorded error list. -/
theorem putStore_invalid (accept : String) (now i : Nat) (fu ff : Bool)
    (b : ReqBody) (db : DbState) (old : Row)
    (hfound : dbGet db i = some old) (hne : updateErrors b ≠ []) :
    (putStore accept now false fu ff i b db).1 =
      { status := 400, fmt := Fmt.json,
        data := RespData.errList (updateErrors b), xmlRoot := none } := by
  unfold putStore
  simp [hfound, List.isEmpty_iff, hne]

/-- With an existing target row, no recorded error, and a merged name or
address binding as NULL, the UPDATE statement fails its NOT NULL constraint
and update reports 500. -/
theorem putStore_nullmerge (accept : String) (now i : Nat) (ff : Bool)
    (b : ReqBody) (db : DbState) (old : Row)
    (hfound : dbGet db i = some old) (herr : updateErrors b = [])
    (hna : mergeField (effectivePayload b).name (some old.name) = none ∨
      mergeField (effectivePayload b).address (some old.address) = none) :
    (putStore accept now false false ff i b db).1.status = 500 := by
  unfold putStore
  rcases hna with h | h
  · simp [hfound, herr, dbUpdate, h]
  · cases hn : mergeField (effectivePayload b).name (some old.name) with
    | none => simp [hfound, herr, dbUpdate, hn]
    | some n => simp [hfound, herr, dbUpdate, hn, h]

/-- Looking the target id up again after the UPDATE statement finds the
first matching row rewritten with the merged values. -/
theorem dbGet_after_update (db : DbState) (i now : Nat) (n a : String)
    (p e : Option String) (old : Row) (hfound : dbGet db i = some old) :
    dbGet { rows := db.rows.map (fun r => if r.id = i then
        { r with name := n, address := a, phone := p, email := e,
                 updated_at := now } else r), nextId := db.nextId } i =
      some { id := old.id, name := n, address := a, phone := p, email := e,
             created_at := old.created_at, updated_at := now } := by
  have hid : old.id = i := dbGet_id db i old hfound
  unfold dbGet at hfound ⊢
  have hf : ∀ r : Row, ((fun r => if r.id = i then
      { r with name := n, address := a, phone := p, email := e,
               updated_at := now } else r) r).id = r.id := by
    intro r
    by_cases h : r.id = i <;> simp [h]
  have hmap := find?_map_id i _ hf db.rows old hfound
  rw [hmap]
  simp [hid]

/-- The update success path: with an existing target row, no recorded
validation error and non-NULL merged name and address, update with no db
failure rewrites the row in place and answers 200 with the merged row. -/
theorem putStore_success (accept : String) (now i : Nat) (b : ReqBody)
    (db : DbState) (old : Row) (n a : String) (p e : Option String)
    (hfound : dbGet db i = some old)
    (herr : updateErrors b = [])
    (hn : mergeField (effectivePayload b).name (some old.name) = some n)
    (ha : mergeField (effectivePayload b).address (some old.address) = some a)
    (hp : mergeField (effectivePayload b).phone old.phone = p)
    (he : mergeField (effectivePayload b).email old.email = e) :
    putStore accept now false false false i b db =
      (sendResponse accept (RespData.rowData
        { id := old.id, name := n, address := a, phone := p, email := e,
          created_at := old.created_at, updated_at := now }) 200,
       { rows := db.rows.map (fun r => if r.id = i then
           { r with name := n, address := a, phone := p, email := e,
                    updated_at := now } else r),
         nextId := db.nextId }) := by
  have hget := dbGet_after_update db i now n a p e old hfound
  unfold putStore
  simp [hfound, herr, hn, ha, hp, he, dbUpdate, hget]

/-- An update payload replacing only the name. -/
def renameBody : ReqBody := { name := some (JScalar.str "Acme2") }

/-- C8 amended. For every successful update on an existing row, the row
re-read from the table has the same id and created_at, every field absent
from the unwrapped payload keeps its prior value, every field present in
the payload takes the supplied value (strings as themselves, null as
NULL), and updated_at is set to the current timestamp of the UPDATE
statement, not necessarily strictly above its prior value: an update whose
CURRENT_TIMESTAMP equals the stored updated_at leaves it unchanged. -/
theorem C8_update_merge_frame (accept : String) (now i : Nat) (b : ReqBody)
    (db : DbState) (old : Row)
    (hfound : dbGet db i = some old)
    (hok : (putStore accept now false false false i b db).1.status = 200) :
    ∃ newRow,
      dbGet (putStore accept now false false false i b db).2 i =
        some newRow ∧
      newRow.id = old.id ∧
      newRow.created_at = old.created_at ∧
      newRow.updated_at = now ∧
      ((effectivePayload b).name = none → newRow.name = old.name) ∧
      (∀ s, (effectivePayload b).name = some (JScalar.str s) →
        newRow.name = s) ∧
      ((effectivePayload b).address = none → newRow.address = old.address) ∧
      (∀ s, (effectivePayload b).address = some (JScalar.str s) →
        newRow.address = s) ∧
      ((effectivePayload b).phone = none → newRow.phone = old.phone) ∧
      (∀ v, (effectivePayload b).phone = some v →
        newRow.phone = toDbVal (some v)) ∧
      ((effectivePayload b).email = none → newRow.email = old.email) ∧
      (∀ v, (effectivePayload b).email = some v →
        newRow.email = toDbVal (some v)) := by
  have herr : updateErrors b = [] := by
    by_contra hne
    have h400 := putStore_invalid accept now i false false b db old hfound hne
    rw [h400] at hok
    simp at hok
  obtain ⟨n, hn⟩ : ∃ n,
      mergeField (effectivePayload b).name (some old.name) = some n := by
    cases hmn : mergeField (effectivePayload b).name (some old.name) with
    | some n => exact ⟨n, rfl⟩
    | none =>
        have h500 := putStore_nullmerge accept now i false b db old hfound
          herr (Or.inl hmn)
        rw [hok] at h500
        simp at h500
  obtain ⟨a, ha⟩ : ∃ a,
      mergeField (effectivePayload b).address (some old.address) = some a := by
    cases hma : mergeField (effectivePayload b).address (some old.address) with
    | some a => exact ⟨a, rfl⟩
    | none =>
        have h500 := putStore_nullmerge accept now i false b db old hfound
          herr (Or.inr hma)
        rw [hok] at h500
        simp at h500
  rw [putStore_success accept now i b db old n a
    (mergeField (effectivePayload b).phone old.phone)
    (mergeField (effectivePayload b).email old.email)
    hfound herr hn ha rfl rfl]
  refine ⟨{ id := old.id, name := n, address := a,
            phone := mergeField (effectivePayload b).phone old.phone,
            email := mergeField (effectivePayload b).email old.email,
            created_at := old.created_at, updated_at := now },
    dbGet_after_update db i now n a _ _ old hfound,
    rfl, rfl, rfl, ?_, ?_, ?_, ?_, ?_, ?_, ?_, ?_⟩
  · intro h0
    rw [h0] at hn
    simp [mergeField] at hn
    exact hn.symm
  · intro s hs
    rw [hs] at hn
    simp [mergeField, toDbVal] at hn
    exact hn.symm
  · intro h0
    rw [h0] at ha
    simp [mergeField] at ha
    exact ha.symm
  · intro s hs
    rw [hs] at ha
    simp [mergeField, toDbVal] at ha
    exact ha.symm
  · intro h0
    rw [h0]
    rfl
  · intro v hv
    rw [hv]
    rfl
  · intro h0
    rw [h0]
    rfl
  · intro v hv
    rw [hv]
    rfl

/-- Witness for C8: renaming the sample store succeeds and the re-read row
keeps address, phone, email, id and created_at, takes the new name and the
new updated_at. -/
theorem C8_update_merge_frame_witness :
    dbGet sampleDb 1 = some sampleRow ∧
    (putStore "" 5 false false false 1 renameBody sampleDb).1.status = 200 ∧
    ∃ newRow,
      dbGet (putStore "" 5 false false false 1 renameBody sampleDb).2 1 =
        some newRow ∧
      newRow.id = sampleRow.id ∧
      newRow.created_at = sampleRow.created_at ∧
      newRow.updated_at = 5 ∧
      ((effectivePayload renameBody).name = none →
        newRow.name = sampleRow.name) ∧
      (∀ s, (effectivePayload renameBody).name = some (JScalar.str s) →
        newRow.name = s) ∧
      ((effectivePayload renameBody).address = none →
        newRow.address = sampleRow.address) ∧
      (∀ s, (effectivePayload renameBody).address = some (JScalar.str s) →
        newRow.address = s) ∧
      ((effectivePayload renameBody).phone = none →
        newRow.phone = sampleRow.phone) ∧
      (∀ v, (effectivePayload renameBody).phone = some v →
        newRow.phone = toDbVal (some v)) ∧
      ((effectivePayload renameBody).email = none →
        newRow.email = sampleRow.email) ∧
      (∀ v, (effectivePayload renameBody).email = some v →
        newRow.email = toDbVal (some v)) :=
  ⟨by decide, by decide,
    C8_update_merge_frame "" 5 1 renameBody sampleDb sampleRow
      (by decide) (by decide)⟩

/-- C8 counterexample. The original claim says updated_at strictly
increases on every successful update. An update running at the same
timestamp as the stored updated_at (as happens in the code when the UPDATE
executes within the same CURRENT_TIMESTAMP second as the previous write)
succeeds with 200 and re-reads the row with updated_at unchanged, so it
does not strictly increase. -/
theorem C8_strict_increase_counterexample :
    dbGet sampleDb 1 = some sampleRow ∧
    (putStore "" sampleRow.updated_at false false false 1 renameBody
      sampleDb).1.status = 200 ∧
    dbGet (putStore "" sampleRow.updated_at false false false 1 renameBody
      sampleDb).2 1 =
      some { id := 1, name := "Acme2", address := "1 Main St", phone := none,
             email := none, created_at := 0,
             updated_at := sampleRow.updated_at } ∧
    ¬ sampleRow.updated_at < sampleRow.updated_at := by
  decide

/-- A sample row whose phone is set. -/
def phoneRow : Row :=
  { id := 1, name := "Acme", address := "1 Main St", phone := some "555-1234",
    email := none, created_at := 0, updated_at := 0 }

/-- A database holding exactly the sample row with a phone. -/
def phoneDb : DbState := { rows := [phoneRow], nextId := 2 }

/-- C10. In the update merge, a field present with the JS null value (such
as a phone field set to null) overwrites the stored value with NULL, while
an absent field is preserved: updating an existing row with a payload whose
only field is a null phone succeeds and persists a NULL phone, keeping the
other fields, whereas the empty payload keeps the stored phone. -/
theorem C10_present_null_overwrites (accept : String) (now i : Nat)
    (db : DbState) (old : Row) (hfound : dbGet db i = some old) :
    (putStore accept now false false false i phoneNullBody db).1.status =
      200 ∧
    (∃ newRow,
      dbGet (putStore accept now false false false i phoneNullBody db).2 i =
        some newRow ∧ newRow.phone = none ∧ newRow.name = old.name ∧
        newRow.address = old.address ∧ newRow.email = old.email) ∧
    (∃ keepRow,
      dbGet (putStore accept now false false false i ({} : ReqBody) db).2 i =
        some keepRow ∧ keepRow.phone = old.phone) := by
  have h1 := putStore_success accept now i phoneNullBody db old old.name
    old.address none old.email hfound rfl rfl rfl rfl rfl
  have h2 := putStore_success accept now i ({} : ReqBody) db old old.name
    old.address old.phone old.email hfound rfl rfl rfl rfl rfl
  refine ⟨?_, ?_, ?_⟩
  · rw [h1]
    exact sendResponse_status _ _ _
  · rw [h1]
    exact ⟨_, dbGet_after_update db i now old.name old.address none old.email
      old hfound, rfl, rfl, rfl, rfl⟩
  · rw [h2]
    exact ⟨_, dbGet_after_update db i now old.name old.address old.phone
      old.email old hfound, rfl⟩

/-- Witness for C10 on a store whose phone is set. -/
theorem C10_present_null_overwrites_witness :
    dbGet phoneDb 1 = some phoneRow ∧
    ((putStore "" 5 false false false 1 phoneNullBody phoneDb).1.status =
       200 ∧
     (∃ newRow,
       dbGet (putStore "" 5 false false false 1 phoneNullBody phoneDb).2 1 =
         some newRow ∧ newRow.phone = none ∧ newRow.name = phoneRow.name ∧
         newRow.address = phoneRow.address ∧ newRow.email = phoneRow.email) ∧
     (∃ keepRow,
       dbGet (putStore "" 5 false false false 1 ({} : ReqBody) phoneDb).2 1 =
         some keepRow ∧ keepRow.phone = phoneRow.phone)) :=
  ⟨by decide, C10_present_null_overwrites "" 5 1 phoneDb phoneRow (by decide)⟩
